import Mathlib

/-!
# floppysox: session loop, error classification and event hooks

A shallow embedding of `main.go`.  The program is a headless protocol client:
`main` authenticates, joins a server and then loops on `client.HandleGame()`,
classifying every error it returns; nine hooks react to decoded events.

Calls into the protocol library are modelled as effects in a trace, and the
answers of the library (credentials, join result, successive results of
`HandleGame`, result of sending a chat message or of respawning) are inputs.
-/

namespace Floppysox

/-! ## Errors and `errors.As` -/

/-- The library's `chat.Message`, reduced to its text. -/
structure Message where
  text : String
  deriving DecidableEq, Repr

/-- Go error values, as chains linked by `Unwrap`.

* `disconnectErr r` is `DisconnectErr{Reason: r}` (main.go:161); it has no `Unwrap` method.
* `packetHandlerError id e` is `bot.PacketHandlerError{ID: id, Err: e}`, which unwraps to `e`;
  `packetHandlerErrorNil id` is the same struct with a nil `Err`.
* `wrapping m e` is a value of any other error type that unwraps to `e`.
* `leaf m` is a value of any other error type without `Unwrap`.

Other error types are taken not to define an `As` method of their own. -/
inductive GoError where
  | disconnectErr (reason : Message)
  | packetHandlerError (id : Int) (err : GoError)
  | packetHandlerErrorNil (id : Int)
  | wrapping (msg : String) (inner : GoError)
  | leaf (msg : String)
  deriving DecidableEq, Repr

namespace GoError

/-- The `Unwrap` step of an error value (`none` when there is no `Unwrap` or it gives nil). -/
def unwrap : GoError → Option GoError
  | packetHandlerError _ e => some e
  | wrapping _ e => some e
  | disconnectErr _ => none
  | packetHandlerErrorNil _ => none
  | leaf _ => none

/-- The error chain: the value itself followed by what it unwraps to. -/
def chain : GoError → List GoError
  | disconnectErr r => [disconnectErr r]
  | packetHandlerError id e => packetHandlerError id e :: chain e
  | packetHandlerErrorNil id => [packetHandlerErrorNil id]
  | wrapping m e => wrapping m e :: chain e
  | leaf m => [leaf m]

/-- The dynamic type of the value is `DisconnectErr`. -/
def isDisconnectErr : GoError → Bool
  | disconnectErr _ => true
  | _ => false

/-- The dynamic type of the value is `bot.PacketHandlerError`. -/
def isPacketHandlerError : GoError → Bool
  | packetHandlerError _ _ => true
  | packetHandlerErrorNil _ => true
  | _ => false

end GoError

/-- `errors.As(err, new(bot.PacketHandlerError))`: the first value of type
`bot.PacketHandlerError` on the chain of `err`, if any. -/
def asPacketHandlerError : GoError → Option GoError
  | .packetHandlerError id e => some (.packetHandlerError id e)
  | .packetHandlerErrorNil id => some (.packetHandlerErrorNil id)
  | .wrapping _ e => asPacketHandlerError e
  | .disconnectErr _ => none
  | .leaf _ => none

/-- `errors.As(err, new(DisconnectErr))`: the `Reason` of the first value of type
`DisconnectErr` on the chain of `err`, if any. -/
def asDisconnectErr : GoError → Option Message
  | .disconnectErr r => some r
  | .packetHandlerError _ e => asDisconnectErr e
  | .packetHandlerErrorNil _ => none
  | .wrapping _ e => asDisconnectErr e
  | .leaf _ => none

/-! ## Effects -/

/-- A 32-bit float, by its bit pattern. -/
structure Float32 where
  bits : Nat
  deriving DecidableEq, Repr

/-- The library's `screen.Slot`. -/
structure Slot where
  ID : Int
  Count : Int
  NBT : String
  deriving DecidableEq, Repr

/-- The library's `level.ChunkPos`. -/
structure ChunkPos where
  x : Int
  z : Int
  deriving DecidableEq, Repr

/-- One operand of a logging call. -/
inductive LogArg where
  | str (s : String)
  | msg (m : Message)
  | err (e : Option GoError)
  | bool (b : Bool)
  | int (i : Int)
  | float (f : Float32)
  | pos (p : ChunkPos)
  | slot (s : Slot)
  | item (info : Option String)
  deriving DecidableEq, Repr

/-- `time.Second`, in nanoseconds. -/
def second : Nat := 1000000000

/-- Observable actions of the program, in program order. -/
inductive Effect where
  | logPrint (args : List LogArg)
  | logPrintln (args : List LogArg)
  | logPrintf (format : String) (args : List LogArg)
  | getCredentials
  | newClient
  | registerHooks
  | joinServer
  | handleGame
  | sendMessage (text : String)
  | goRespawnTask
  | sleep (ns : Nat)
  | respawn
  deriving DecidableEq, Repr

/-- How a hook invocation ends: it returns an error value (possibly nil), or the
runtime panics on an index outside a slot sequence of the given length. -/
inductive HookResult where
  | returned (err : Option GoError)
  | indexOutOfRange (index : Int) (length : Nat)
  deriving DecidableEq, Repr

/-- Effects and result of one hook invocation. -/
structure HookRun where
  effects : List Effect
  result : HookResult
  deriving DecidableEq, Repr

/-! ## Hooks -/

/-- The body of the goroutine started by `onDeath` (main.go:98-104), given what
`player.Respawn()` answers. -/
def respawnTask (respawnResult : Option GoError) : List Effect :=
  [.sleep (second * 5), .respawn] ++
    (match respawnResult with
     | some err => [.logPrint [.err (some err)]]
     | none => [])

/-- `onDeath` (main.go:95). -/
def onDeath : HookRun :=
  { effects := [.logPrintln [.str "Died and Respawned"], .goRespawnTask]
    result := .returned none }

/-- `onGameStart` (main.go:108), given what `chatHandler.SendMessage` answers. -/
def onGameStart (sendResult : Option GoError) : HookRun :=
  { effects := [.logPrintln [.str "Game start"], .sendMessage "Hello, world"]
    result :=
      match sendResult with
      | some err => .returned (some err)
      | none => .returned none }

/-- `onPlayerMsg` (main.go:116). -/
def onPlayerMsg (msg : Message) : HookRun :=
  { effects := [.logPrintf "Player: %v" [.msg msg]]
    result := .returned none }

/-- `onSystemMsg` (main.go:121). -/
def onSystemMsg (c : Message) (overlay : Bool) : HookRun :=
  { effects := [.logPrintf "System: %v, Overlay: %v" [.msg c, .bool overlay]]
    result := .returned none }

/-- `onChunkLoad` (main.go:126). -/
def onChunkLoad (pos : ChunkPos) : HookRun :=
  { effects := [.logPrintln [.str "Load chunk:", .pos pos]]
    result := .returned none }

/-- `onChunkUnload` (main.go:131). -/
def onChunkUnload (pos : ChunkPos) : HookRun :=
  { effects := [.logPrintln [.str "Unload chunk:", .pos pos]]
    result := .returned none }

/-- `onHealthChange` (main.go:156). -/
def onHealthChange (health : Float32) : HookRun :=
  { effects := [.logPrintf "HealthChange: %v" [.float health]]
    result := .returned none }

/-- `onDisconnect` (main.go:169): the error value it returns. -/
def onDisconnect (reason : Message) : GoError :=
  .disconnectErr reason

/-- `onDisconnect` as a hook invocation: no effect, and the error is returned. -/
def onDisconnectRun (reason : Message) : HookRun :=
  { effects := []
    result := .returned (some (onDisconnect reason)) }

/-! ## The screen store and `onScreenSlotChange` -/

/-- The library's `screen.Container`: an inventory, or a container of another type. -/
inductive Container where
  | inventory (slots : List Slot)
  | otherContainer (kind : String)
  deriving DecidableEq, Repr

/-- The stores of `screen.Manager` read by the hook. -/
structure ScreenManager where
  Screens : List (Int × Container)
  Inventory : List Slot
  Cursor : Slot
  deriving DecidableEq, Repr

/-- Answer of indexing the library table `item.ByID`: a description, a nil entry, or a
fault when the table cannot be indexed there. -/
inductive ItemLookup where
  | info (description : String)
  | nilItem
  | fault (length : Nat)
  deriving DecidableEq, Repr

/-- The map read `screenManager.Screens[id]`. -/
def lookupScreen : List (Int × Container) → Int → Option Container
  | [], _ => none
  | (k, c) :: rest, id => if k = id then some c else lookupScreen rest id

/-- The indexing expression `Slots[index]`: `none` when Go panics. -/
def slotAt (slots : List Slot) (index : Int) : Option Slot :=
  if index < 0 then none else slots[index.toNat]?

/-- Result of `onScreenSlotChange`: the hook run and the stores after the call. -/
structure ScreenRun where
  run : HookRun
  after : ScreenManager
  deriving DecidableEq, Repr

/-- `onScreenSlotChange` (main.go:136).  `byID` is the library table `item.ByID`, indexed by
`item.ID(slot.ID)`, an unsigned 32-bit conversion. -/
def onScreenSlotChange (byID : Nat → ItemLookup) (screenManager : ScreenManager)
    (id index : Int) : ScreenRun :=
  if id = -2 then
    match slotAt screenManager.Inventory index with
    | some slot =>
        { run := { effects := [.logPrintf "Slot: inventory: %v" [.slot slot]]
                   result := .returned none }
          after := screenManager }
    | none =>
        { run := { effects := []
                   result := .indexOutOfRange index screenManager.Inventory.length }
          after := screenManager }
  else if id = -1 ∧ index = -1 then
    { run := { effects := [.logPrintf "Slot: cursor: %v" [.slot screenManager.Cursor]]
               result := .returned none }
      after := screenManager }
  else
    match lookupScreen screenManager.Screens id with
    | some (.inventory slots) =>
        match slotAt slots index with
        | some slot =>
            match byID (slot.ID % 4294967296).toNat with
            | .info d =>
                { run := { effects := [.logPrintf "Slot: Screen[%d].Slot[%d]: [%v] * %d | NBT: %v"
                                        [.int id, .int index, .item (some d), .int slot.Count,
                                         .str slot.NBT]]
                           result := .returned none }
                  after := screenManager }
            | .nilItem =>
                { run := { effects := [.logPrintf "Slot: Screen[%d].Slot[%d]: [%v] * %d | NBT: %v"
                                        [.int id, .int index, .item none, .int slot.Count,
                                         .str slot.NBT]]
                           result := .returned none }
                  after := screenManager }
            | .fault n =>
                { run := { effects := []
                           result := .indexOutOfRange (slot.ID % 4294967296) n }
                  after := screenManager }
        | none =>
            { run := { effects := [], result := .indexOutOfRange index slots.length }
              after := screenManager }
    | some (.otherContainer _) =>
        { run := { effects := [], result := .returned none }, after := screenManager }
    | none =>
        { run := { effects := [], result := .returned none }, after := screenManager }

/-! ## Dispatch of hook invocations -/

/-- One hook invocation as registered in `main` (main.go:45-65), with the answer of the
collaborator the hook calls.  `screenOpen` and `screenClose` have nil hooks. -/
inductive HookCall where
  | gameStart (sendResult : Option GoError)
  | systemMsg (c : Message) (overlay : Bool)
  | disconnect (reason : Message)
  | healthChange (health : Float32)
  | death
  | playerChatMessage (msg : Message)
  | loadChunk (pos : ChunkPos)
  | unloadChunk (pos : ChunkPos)
  | setSlot (id index : Int)
  | screenOpen (id : Int)
  | screenClose (id : Int)
  deriving DecidableEq, Repr

/-- The hook registered for each kind of invocation, run on the current stores. -/
def invoke (byID : Nat → ItemLookup) (screenManager : ScreenManager) : HookCall → HookRun
  | .gameStart sendResult => onGameStart sendResult
  | .systemMsg c overlay => onSystemMsg c overlay
  | .disconnect reason => onDisconnectRun reason
  | .healthChange health => onHealthChange health
  | .death => onDeath
  | .playerChatMessage msg => onPlayerMsg msg
  | .loadChunk pos => onChunkLoad pos
  | .unloadChunk pos => onChunkUnload pos
  | .setSlot id index => (onScreenSlotChange byID screenManager id index).run
  | .screenOpen _ => { effects := [], result := .returned none }
  | .screenClose _ => { effects := [], result := .returned none }

/-- The texts of the chat messages sent in a trace. -/
def sentMessages : List Effect → List String
  | [] => []
  | .sendMessage text :: rest => text :: sentMessages rest
  | _ :: rest => sentMessages rest

/-- The effects of a sequence of hook invocations, in order. -/
def invokeAll (byID : Nat → ItemLookup) (screenManager : ScreenManager) :
    List HookCall → List Effect
  | [] => []
  | call :: rest => (invoke byID screenManager call).effects ++ invokeAll byID screenManager rest

/-- The invocation is a game-start. -/
def HookCall.isGameStart : HookCall → Bool
  | .gameStart _ => true
  | _ => false

/-! ## `main` and the session loop -/

/-- How a run of `main` ends: `returned` is a return from `main` (exit status 0), `fatal` is
`log.Fatal` (`os.Exit(1)` after printing), `panicked` an unrecovered panic (exit status 2),
and `running` means the loop is inside a call of `HandleGame` that has not answered. -/
inductive Outcome where
  | returned
  | fatal
  | panicked (value : String)
  | running
  deriving DecidableEq, Repr

/-- The exit status of the process, once it has ended. -/
def Outcome.exitStatus : Outcome → Option Nat
  | .returned => some 0
  | .fatal => some 1
  | .panicked _ => some 2
  | .running => none

/-- Trace and outcome of a run. -/
structure Run where
  trace : List Effect
  outcome : Outcome
  deriving DecidableEq, Repr

/-- The `for` loop of `main` (main.go:75-91), fed the successive results of
`client.HandleGame()`. -/
def sessionLoop : List (Option GoError) → Run
  | [] => { trace := [.handleGame], outcome := .running }
  | none :: _ => { trace := [.handleGame], outcome := .panicked "HandleGame never return nil" }
  | some err :: rest =>
      match asPacketHandlerError err with
      | some err2 =>
          match asDisconnectErr err2 with
          | some reason =>
              { trace := [.handleGame, .logPrint [.str "Disconnect: ", .msg reason]]
                outcome := .returned }
          | none =>
              { trace := [.handleGame, .logPrint [.err (some err2)]] ++ (sessionLoop rest).trace
                outcome := (sessionLoop rest).outcome }
      | none =>
          { trace := [.handleGame, .logPrint [.err (some err)]]
            outcome := .fatal }

/-- The credentials returned by `GMMAuth.GetMCcredentials`. -/
structure Auth where
  Name : String
  UUID : String
  AsTk : String
  deriving DecidableEq, Repr

/-- What the collaborators answer during one run of `main`. -/
structure Collaborators where
  credentials : Except GoError Auth
  joinResult : Option GoError
  handleGameResults : List (Option GoError)

/-- `main` (main.go:35).  The variable `err` of line 36 is nil once line 37 has let the run
through, and it is that variable that line 70 prints. -/
def main (w : Collaborators) : Run :=
  match w.credentials with
  | .error err =>
      { trace := [.getCredentials, .logPrint [.err (some err)]]
        outcome := .returned }
  | .ok mauth =>
      let err : Option GoError := none
      let setup : List Effect :=
        [.getCredentials,
         .logPrint [.str "Authenticated as ", .str mauth.Name, .str " (", .str mauth.UUID,
                    .str ")"],
         .newClient, .registerHooks, .joinServer]
      match w.joinResult with
      | some _login_err =>
          { trace := setup ++ [.logPrint [.err err]]
            outcome := .fatal }
      | none =>
          { trace := setup ++ [.logPrintln [.str "Login success"]] ++
              (sessionLoop w.handleGameResults).trace
            outcome := (sessionLoop w.handleGameResults).outcome }

/-- Number of calls of `client.HandleGame()` in a trace. -/
def handleGameCalls (trace : List Effect) : Nat :=
  trace.count .handleGame

/-- An error wrapped in layers of other error types, outermost first. -/
def wrapLayers : List String → GoError → GoError
  | [], e => e
  | m :: ms, e => .wrapping m (wrapLayers ms e)

/-- The chain of the error holds a value of type `bot.PacketHandlerError`. -/
def chainHasPacketHandlerError (e : GoError) : Bool :=
  e.chain.any GoError.isPacketHandlerError

/-- The chain of the error holds a value of type `DisconnectErr`. -/
def chainHasDisconnectErr (e : GoError) : Bool :=
  e.chain.any GoError.isDisconnectErr

/-- The first value of type `bot.PacketHandlerError` on the chain. -/
def firstPacketHandlerError (e : GoError) : Option GoError :=
  e.chain.find? GoError.isPacketHandlerError

/-- The run of a loop iteration that takes the graceful path with the given reason. -/
def gracefulRun (reason : Message) : Run :=
  { trace := [.handleGame, .logPrint [.str "Disconnect: ", .msg reason]]
    outcome := .returned }

/-- The run of a loop iteration that takes the `log.Fatal` path on the given error. -/
def fatalRun (err : GoError) : Run :=
  { trace := [.handleGame, .logPrint [.err (some err)]]
    outcome := .fatal }

/-- The trace of iterations that each print the handler error found and call `HandleGame`
again: one call and one log line per error. -/
def loggedAndRetried : List GoError → List Effect
  | [] => []
  | e :: es =>
      .handleGame :: .logPrint [.err (firstPacketHandlerError e)] :: loggedAndRetried es

/-- An empty slot. -/
def emptySlot : Slot := { ID := 0, Count := 0, NBT := "" }

/-- The stores of a manager as `screen.NewManager` leaves them: 46 empty inventory slots,
an empty cursor, and the inventory registered as screen 0. -/
def freshManager : ScreenManager :=
  { Screens := [(0, .inventory (List.replicate 46 emptySlot))]
    Inventory := List.replicate 46 emptySlot
    Cursor := emptySlot }

/-- Stores in which all slots differ: three inventory slots, a cursor, the inventory
opened as screen 0, a two-slot chest opened as screen 3 and a furnace as screen 4. -/
def sampleManager : ScreenManager :=
  { Screens := [(0, .inventory [⟨1, 1, "a"⟩, ⟨2, 5, "b"⟩, ⟨3, 7, ""⟩]),
                (3, .inventory [⟨10, 1, "d"⟩, ⟨11, 2, "e"⟩]),
                (4, .otherContainer "furnace")]
    Inventory := [⟨1, 1, "a"⟩, ⟨2, 5, "b"⟩, ⟨3, 7, ""⟩]
    Cursor := ⟨9, 1, "c"⟩ }

/-- An item table that knows item 11 only. -/
def sampleTable : Nat → ItemLookup := fun n => if n = 11 then .info "stick" else .nilItem

/-- An item table in which every entry is nil. -/
def nilTable : Nat → ItemLookup := fun _ => .nilItem

/-! ## Lemmas on error chains -/

theorem asPacketHandlerError_eq_find (e : GoError) :
    asPacketHandlerError e = firstPacketHandlerError e := by
  induction e with
  | disconnectErr r =>
      simp [asPacketHandlerError, firstPacketHandlerError, GoError.chain,
        GoError.isPacketHandlerError]
  | packetHandlerError id e _ =>
      simp [asPacketHandlerError, firstPacketHandlerError, GoError.chain,
        GoError.isPacketHandlerError]
  | packetHandlerErrorNil id =>
      simp [asPacketHandlerError, firstPacketHandlerError, GoError.chain,
        GoError.isPacketHandlerError]
  | wrapping m e ih =>
      simpa [asPacketHandlerError, firstPacketHandlerError, GoError.chain,
        GoError.isPacketHandlerError] using ih
  | leaf m =>
      simp [asPacketHandlerError, firstPacketHandlerError, GoError.chain,
        GoError.isPacketHandlerError]

theorem asPacketHandlerError_none_iff (e : GoError) :
    asPacketHandlerError e = none ↔ chainHasPacketHandlerError e = false := by
  induction e with
  | disconnectErr r =>
      simp [asPacketHandlerError, chainHasPacketHandlerError, GoError.chain,
        GoError.isPacketHandlerError]
  | packetHandlerError id e _ =>
      simp [asPacketHandlerError, chainHasPacketHandlerError, GoError.chain,
        GoError.isPacketHandlerError]
  | packetHandlerErrorNil id =>
      simp [asPacketHandlerError, chainHasPacketHandlerError, GoError.chain,
        GoError.isPacketHandlerError]
  | wrapping m e ih =>
      simpa [asPacketHandlerError, chainHasPacketHandlerError, GoError.chain,
        GoError.isPacketHandlerError] using ih
  | leaf m =>
      simp [asPacketHandlerError, chainHasPacketHandlerError, GoError.chain,
        GoError.isPacketHandlerError]

theorem asDisconnectErr_some_iff (e : GoError) (r : Message) :
    asDisconnectErr e = some r ↔ GoError.disconnectErr r ∈ e.chain := by
  induction e with
  | disconnectErr r0 => simp [asDisconnectErr, GoError.chain, eq_comm]
  | packetHandlerError id e ih => simpa [asDisconnectErr, GoError.chain] using ih
  | packetHandlerErrorNil id => simp [asDisconnectErr, GoError.chain]
  | wrapping m e ih => simpa [asDisconnectErr, GoError.chain] using ih
  | leaf m => simp [asDisconnectErr, GoError.chain]

theorem asDisconnectErr_none_iff (e : GoError) :
    asDisconnectErr e = none ↔ chainHasDisconnectErr e = false := by
  induction e with
  | disconnectErr r0 =>
      simp [asDisconnectErr, chainHasDisconnectErr, GoError.chain, GoError.isDisconnectErr]
  | packetHandlerError id e ih =>
      simpa [asDisconnectErr, chainHasDisconnectErr, GoError.chain, GoError.isDisconnectErr]
        using ih
  | packetHandlerErrorNil id =>
      simp [asDisconnectErr, chainHasDisconnectErr, GoError.chain, GoError.isDisconnectErr]
  | wrapping m e ih =>
      simpa [asDisconnectErr, chainHasDisconnectErr, GoError.chain, GoError.isDisconnectErr]
        using ih
  | leaf m =>
      simp [asDisconnectErr, chainHasDisconnectErr, GoError.chain, GoError.isDisconnectErr]

/-- The second `errors.As` of the loop, started at the handler error found by the first,
finds what a search from the original error finds. -/
theorem asDisconnectErr_of_asPacketHandlerError (e p : GoError)
    (h : asPacketHandlerError e = some p) : asDisconnectErr p = asDisconnectErr e := by
  induction e with
  | disconnectErr r => simp [asPacketHandlerError] at h
  | packetHandlerError id e _ =>
      simp only [asPacketHandlerError, Option.some.injEq] at h
      subst h
      rfl
  | packetHandlerErrorNil id =>
      simp only [asPacketHandlerError, Option.some.injEq] at h
      subst h
      rfl
  | wrapping m e ih =>
      simp only [asPacketHandlerError] at h
      simpa [asDisconnectErr] using ih h
  | leaf m => simp [asPacketHandlerError] at h

theorem asPacketHandlerError_wrapLayers (ms : List String) (e : GoError) :
    asPacketHandlerError (wrapLayers ms e) = asPacketHandlerError e := by
  induction ms with
  | nil => rfl
  | cons m ms ih => simpa [wrapLayers, asPacketHandlerError] using ih

theorem asDisconnectErr_wrapLayers (ms : List String) (e : GoError) :
    asDisconnectErr (wrapLayers ms e) = asDisconnectErr e := by
  induction ms with
  | nil => rfl
  | cons m ms ih => simpa [wrapLayers, asDisconnectErr] using ih

/-- One iteration of the loop on a non-nil error, by the two searches from that error. -/
theorem sessionLoop_some (e : GoError) (rest : List (Option GoError)) :
    sessionLoop (some e :: rest) =
      match asPacketHandlerError e with
      | some err2 =>
          match asDisconnectErr e with
          | some reason => gracefulRun reason
          | none =>
              { trace := [.handleGame, .logPrint [.err (some err2)]] ++ (sessionLoop rest).trace
                outcome := (sessionLoop rest).outcome }
      | none => fatalRun e := by
  cases h : asPacketHandlerError e with
  | none => simp [sessionLoop, h, fatalRun]
  | some p =>
      have hd := asDisconnectErr_of_asPacketHandlerError e p h
      cases h2 : asDisconnectErr e with
      | none =>
          rw [h2] at hd
          simp [sessionLoop, h, hd]
      | some r =>
          rw [h2] at hd
          simp [sessionLoop, h, hd, gracefulRun]

theorem handleGameCalls_cons_log (args : List LogArg) (t : List Effect) :
    handleGameCalls (.handleGame :: .logPrint args :: t) = handleGameCalls t + 1 := by
  simp [handleGameCalls]

/-! ## The session loop: classification of the errors of `HandleGame` -/

/-- C1: for every reason `r`, when the error returned by `onDisconnect r` reaches the loop
wrapped in a `bot.PacketHandlerError` (with any further layers of other error types inside
or around it), the iteration logs "Disconnect: " with `r` and `main` returns: the outcome is
not the fatal one and `HandleGame` is called once, never again, whatever results would
have followed. -/
theorem onDisconnect_takes_graceful_path (r : Message) (id : Int) (outer inner : List String)
    (rest : List (Option GoError)) (mauth : Auth) :
    sessionLoop
        (some (wrapLayers outer (.packetHandlerError id (wrapLayers inner (onDisconnect r))))
          :: rest)
      = { trace := [.handleGame, .logPrint [.str "Disconnect: ", .msg r]]
          outcome := .returned } ∧
    (main ⟨.ok mauth, none,
        some (wrapLayers outer (.packetHandlerError id (wrapLayers inner (onDisconnect r))))
          :: rest⟩).outcome = .returned ∧
    (main ⟨.ok mauth, none,
        some (wrapLayers outer (.packetHandlerError id (wrapLayers inner (onDisconnect r))))
          :: rest⟩).outcome ≠ .fatal ∧
    handleGameCalls (main ⟨.ok mauth, none,
        some (wrapLayers outer (.packetHandlerError id (wrapLayers inner (onDisconnect r))))
          :: rest⟩).trace = 1 := by
  have hp : asPacketHandlerError
      (wrapLayers outer (.packetHandlerError id (wrapLayers inner (onDisconnect r))))
      = some (.packetHandlerError id (wrapLayers inner (onDisconnect r))) := by
    rw [asPacketHandlerError_wrapLayers]
    rfl
  have hd : asDisconnectErr
      (wrapLayers outer (.packetHandlerError id (wrapLayers inner (onDisconnect r))))
      = some r := by
    rw [asDisconnectErr_wrapLayers]
    simp only [asDisconnectErr]
    rw [asDisconnectErr_wrapLayers]
    rfl
  have hloop : sessionLoop
        (some (wrapLayers outer (.packetHandlerError id (wrapLayers inner (onDisconnect r))))
          :: rest)
      = { trace := [.handleGame, .logPrint [.str "Disconnect: ", .msg r]]
          outcome := .returned } := by
    rw [sessionLoop_some, hp, hd]
    rfl
  refine ⟨hloop, ?_, ?_, ?_⟩
  · simp [main, hloop]
  · simp [main, hloop]
  · simp [main, hloop, handleGameCalls]

/-- C2 (as stated, refuted): a `DisconnectErr` that reaches the loop with no
`bot.PacketHandlerError` around it has a `DisconnectErr` on its chain, and the loop ends
through `log.Fatal`, not through the graceful return. -/
theorem bare_disconnect_is_fatal :
    chainHasDisconnectErr (onDisconnect ⟨"Kicked"⟩) = true ∧
    (sessionLoop [some (onDisconnect ⟨"Kicked"⟩)]).outcome = .fatal ∧
    (sessionLoop [some (onDisconnect ⟨"Kicked"⟩)]).outcome ≠ .returned ∧
    ¬ (∀ (e : GoError) (rest : List (Option GoError)), chainHasDisconnectErr e = true →
        (sessionLoop (some e :: rest)).outcome = .returned) := by
  refine ⟨rfl, rfl, ?_, ?_⟩
  · simp [sessionLoop, onDisconnect, asPacketHandlerError]
  · intro h
    have h1 := h (onDisconnect ⟨"Kicked"⟩) [] rfl
    simp [sessionLoop, onDisconnect, asPacketHandlerError] at h1

/-- C2 (amended): the loop tests for `bot.PacketHandlerError` first and looks for a
`DisconnectErr` only inside it.  For every error whose chain holds `DisconnectErr{r}`:
if the chain also holds a `bot.PacketHandlerError`, the loop logs "Disconnect: " with `r` and
returns; if it holds none, the loop prints the error and ends through `log.Fatal`. -/
theorem disconnect_classified_inside_handler_error (e : GoError) (r : Message)
    (rest : List (Option GoError)) (hd : GoError.disconnectErr r ∈ e.chain) :
    (chainHasPacketHandlerError e = true →
      sessionLoop (some e :: rest)
        = { trace := [.handleGame, .logPrint [.str "Disconnect: ", .msg r]]
            outcome := .returned }) ∧
    (chainHasPacketHandlerError e = false →
      sessionLoop (some e :: rest)
        = { trace := [.handleGame, .logPrint [.err (some e)]]
            outcome := .fatal }) := by
  have hr : asDisconnectErr e = some r := (asDisconnectErr_some_iff e r).mpr hd
  constructor
  · intro hp
    cases h : asPacketHandlerError e with
    | none =>
        rw [(asPacketHandlerError_none_iff e).mp h] at hp
        cases hp
    | some p =>
        rw [sessionLoop_some, h, hr]
        rfl
  · intro hp
    rw [sessionLoop_some, (asPacketHandlerError_none_iff e).mpr hp]
    rfl

/-- Witness of C2 (amended): a disconnect wrapped by the dispatcher, and a bare one. -/
theorem disconnect_classified_inside_handler_error_witness :
    sessionLoop [some (.packetHandlerError 26 (onDisconnect ⟨"Kicked"⟩)), none]
      = { trace := [.handleGame, .logPrint [.str "Disconnect: ", .msg ⟨"Kicked"⟩]]
          outcome := .returned } ∧
    sessionLoop [some (onDisconnect ⟨"Kicked"⟩), none]
      = { trace := [.handleGame, .logPrint [.err (some (onDisconnect ⟨"Kicked"⟩))]]
          outcome := .fatal } :=
  ⟨(disconnect_classified_inside_handler_error
      (.packetHandlerError 26 (onDisconnect ⟨"Kicked"⟩)) ⟨"Kicked"⟩ [none]
      (by simp [GoError.chain, onDisconnect])).1 rfl,
   (disconnect_classified_inside_handler_error
      (onDisconnect ⟨"Kicked"⟩) ⟨"Kicked"⟩ [none]
      (by simp [GoError.chain, onDisconnect])).2 rfl⟩

/-- C3: for every finite run of errors returned by `HandleGame`, each with a
`bot.PacketHandlerError` on its chain and no `DisconnectErr` on the chain from that handler
error on, the loop prints the handler error of each and calls `HandleGame` again: what follows the run is processed as if the run
had not happened, and after the run alone the loop is still running, inside one more call of
`HandleGame`, neither returned nor exited. -/
theorem handler_errors_keep_loop_running (errs : List GoError) (rest : List (Option GoError))
    (h : ∀ e ∈ errs, ∃ p, firstPacketHandlerError e = some p ∧ chainHasDisconnectErr p = false) :
    (sessionLoop (errs.map some ++ rest)).trace
      = loggedAndRetried errs ++ (sessionLoop rest).trace ∧
    (sessionLoop (errs.map some ++ rest)).outcome = (sessionLoop rest).outcome ∧
    (sessionLoop (errs.map some)).outcome = .running ∧
    handleGameCalls (sessionLoop (errs.map some)).trace = errs.length + 1 := by
  have step : ∀ (es : List GoError) (tl : List (Option GoError)),
      (∀ e ∈ es, ∃ p, firstPacketHandlerError e = some p ∧ chainHasDisconnectErr p = false) →
      sessionLoop (es.map some ++ tl)
        = { trace := loggedAndRetried es ++ (sessionLoop tl).trace
            outcome := (sessionLoop tl).outcome } := by
    intro es
    induction es with
    | nil => intro tl _; rfl
    | cons e es ih =>
        intro tl hall
        obtain ⟨p, hf, hnp⟩ := hall e (List.mem_cons_self e es)
        have hes : ∀ x ∈ es,
            ∃ q, firstPacketHandlerError x = some q ∧ chainHasDisconnectErr q = false :=
          fun x hx => hall x (List.mem_cons_of_mem e hx)
        have hp : asPacketHandlerError e = some p := by
          rw [asPacketHandlerError_eq_find, hf]
        have hn : asDisconnectErr e = none := by
          rw [← asDisconnectErr_of_asPacketHandlerError e p hp]
          exact (asDisconnectErr_none_iff p).mpr hnp
        simp only [List.map_cons, List.cons_append]
        rw [sessionLoop_some, hp, hn, ih tl hes]
        simp [loggedAndRetried, hf]
  have hcount : ∀ (es : List GoError),
      handleGameCalls (loggedAndRetried es ++ [Effect.handleGame]) = es.length + 1 := by
    intro es
    induction es with
    | nil => rfl
    | cons e es ih =>
        simp only [loggedAndRetried, List.cons_append, handleGameCalls_cons_log, ih,
          List.length_cons]
  have h0 := step errs [] h
  simp only [List.append_nil] at h0
  refine ⟨?_, ?_, ?_, ?_⟩
  · rw [step errs rest h]
  · rw [step errs rest h]
  · rw [h0]; rfl
  · rw [h0]
    exact hcount errs

/-- Witness of C3: a send failure at game start and a decoding failure, both delivered as
handler errors, then nothing more: two log lines, three calls, loop running. -/
theorem handler_errors_keep_loop_running_witness :
    (sessionLoop [some (.packetHandlerError 40 (.leaf "send failed")),
                  some (.wrapping "outer" (.packetHandlerErrorNil 7))]).outcome = .running ∧
    handleGameCalls
      (sessionLoop [some (.packetHandlerError 40 (.leaf "send failed")),
                    some (.wrapping "outer" (.packetHandlerErrorNil 7))]).trace = 3 :=
  ⟨(handler_errors_keep_loop_running
      [.packetHandlerError 40 (.leaf "send failed"), .wrapping "outer" (.packetHandlerErrorNil 7)]
      [] (by
        intro e he
        simp only [List.mem_cons, List.mem_singleton, List.not_mem_nil, or_false] at he
        rcases he with rfl | rfl
        · exact ⟨.packetHandlerError 40 (.leaf "send failed"), rfl, rfl⟩
        · exact ⟨.packetHandlerErrorNil 7, rfl, rfl⟩)).2.2.1,
   (handler_errors_keep_loop_running
      [.packetHandlerError 40 (.leaf "send failed"), .wrapping "outer" (.packetHandlerErrorNil 7)]
      [] (by
        intro e he
        simp only [List.mem_cons, List.mem_singleton, List.not_mem_nil, or_false] at he
        rcases he with rfl | rfl
        · exact ⟨.packetHandlerError 40 (.leaf "send failed"), rfl, rfl⟩
        · exact ⟨.packetHandlerErrorNil 7, rfl, rfl⟩)).2.2.2⟩

/-- C4: every non-nil error of `HandleGame` with no `bot.PacketHandlerError` on its chain is
printed and ends the process through `log.Fatal` (exit status 1) after that single call of
`HandleGame`; a nil result makes the loop panic after that single call, which is neither a
return from `main` nor another iteration. -/
theorem other_errors_and_nil_are_fatal (e : GoError) (rest : List (Option GoError))
    (mauth : Auth) (h : chainHasPacketHandlerError e = false) :
    sessionLoop (some e :: rest)
      = { trace := [.handleGame, .logPrint [.err (some e)]], outcome := .fatal } ∧
    (main ⟨.ok mauth, none, some e :: rest⟩).outcome = .fatal ∧
    (main ⟨.ok mauth, none, some e :: rest⟩).outcome.exitStatus = some 1 ∧
    handleGameCalls (main ⟨.ok mauth, none, some e :: rest⟩).trace = 1 ∧
    sessionLoop (none :: rest)
      = { trace := [.handleGame], outcome := .panicked "HandleGame never return nil" } ∧
    (main ⟨.ok mauth, none, none :: rest⟩).outcome = .panicked "HandleGame never return nil" ∧
    (main ⟨.ok mauth, none, none :: rest⟩).outcome.exitStatus = some 2 ∧
    handleGameCalls (main ⟨.ok mauth, none, none :: rest⟩).trace = 1 := by
  have hloop : sessionLoop (some e :: rest)
      = { trace := [.handleGame, .logPrint [.err (some e)]], outcome := .fatal } := by
    rw [sessionLoop_some, (asPacketHandlerError_none_iff e).mpr h]
    rfl
  refine ⟨hloop, ?_, ?_, ?_, rfl, rfl, rfl, ?_⟩
  · simp [main, hloop]
  · simp [main, hloop, Outcome.exitStatus]
  · simp [main, hloop, handleGameCalls]
  · simp [main, sessionLoop, handleGameCalls]

/-- Witness of C4: a transport error that wraps an end of file. -/
theorem other_errors_and_nil_are_fatal_witness :
    sessionLoop [some (.wrapping "read packet" (.leaf "EOF")), none]
      = { trace := [.handleGame, .logPrint [.err (some (.wrapping "read packet" (.leaf "EOF")))]]
          outcome := .fatal } :=
  (other_errors_and_nil_are_fatal (.wrapping "read packet" (.leaf "EOF")) [none]
    ⟨"Daze", "", ""⟩ rfl).1

/-! ## `main` before the loop -/

/-- C5 (as stated, refuted): when obtaining credentials fails, `main` returns, so the
process ends with exit status 0, not with a non-zero one. -/
theorem credentials_failure_exits_zero :
    (main ⟨.error (.leaf "authentication failed"), none, []⟩).outcome = .returned ∧
    (main ⟨.error (.leaf "authentication failed"), none, []⟩).outcome.exitStatus = some 0 ∧
    (main ⟨.error (.leaf "authentication failed"), none, []⟩).outcome.exitStatus ≠ some 1 := by
  refine ⟨rfl, rfl, ?_⟩
  simp [main, Outcome.exitStatus]

/-- C5 (amended): when obtaining credentials fails with `err`, `main` prints `err` and
returns (exit status 0, not the `log.Fatal` path); no client is created, no join is
attempted and `HandleGame` is never called, whatever the server would have answered. -/
theorem credentials_failure_logs_and_returns (err : GoError) (joinResult : Option GoError)
    (results : List (Option GoError)) :
    main ⟨.error err, joinResult, results⟩
      = { trace := [.getCredentials, .logPrint [.err (some err)]], outcome := .returned } ∧
    (main ⟨.error err, joinResult, results⟩).outcome.exitStatus = some 0 ∧
    Effect.newClient ∉ (main ⟨.error err, joinResult, results⟩).trace ∧
    Effect.joinServer ∉ (main ⟨.error err, joinResult, results⟩).trace ∧
    handleGameCalls (main ⟨.error err, joinResult, results⟩).trace = 0 := by
  refine ⟨rfl, rfl, ?_, ?_, ?_⟩ <;> simp [main, handleGameCalls]

/-- C6 (the code at a failing input): when `JoinServer` fails with "connection refused",
`main` ends through `log.Fatal` before the loop, with no call of `HandleGame` and no
"Login success" line, but the value it prints is the nil left in `err` by the credentials
call, not the join error. -/
theorem join_failure_prints_nil :
    main ⟨.ok ⟨"Daze", "uuid", "token"⟩, some (.leaf "connection refused"), []⟩
      = { trace := [.getCredentials,
                    .logPrint [.str "Authenticated as ", .str "Daze", .str " (", .str "uuid",
                               .str ")"],
                    .newClient, .registerHooks, .joinServer,
                    .logPrint [.err none]]
          outcome := .fatal } ∧
    Effect.logPrint [.err (some (.leaf "connection refused"))]
      ∉ (main ⟨.ok ⟨"Daze", "uuid", "token"⟩, some (.leaf "connection refused"), []⟩).trace ∧
    Effect.logPrintln [.str "Login success"]
      ∉ (main ⟨.ok ⟨"Daze", "uuid", "token"⟩, some (.leaf "connection refused"), []⟩).trace ∧
    handleGameCalls
      (main ⟨.ok ⟨"Daze", "uuid", "token"⟩, some (.leaf "connection refused"), []⟩).trace
      = 0 := by
  refine ⟨rfl, ?_, ?_, ?_⟩ <;> simp [main, handleGameCalls]

/-! ## Hooks -/

theorem sentMessages_append (a b : List Effect) :
    sentMessages (a ++ b) = sentMessages a ++ sentMessages b := by
  induction a with
  | nil => rfl
  | cons x xs ih => cases x <;> simp [sentMessages, ih]

theorem sentMessages_onScreenSlotChange (byID : Nat → ItemLookup) (sm : ScreenManager)
    (id index : Int) : sentMessages (onScreenSlotChange byID sm id index).run.effects = [] := by
  unfold onScreenSlotChange
  repeat (first | split | rfl)

theorem slotAt_natCast (slots : List Slot) (n : Nat) (h : n < slots.length) :
    slotAt slots (n : Int) = some slots[n] := by
  unfold slotAt
  rw [if_neg (by omega)]
  simp [h]

theorem slotAt_outside (slots : List Slot) (index : Int)
    (h : index < 0 ∨ (slots.length : Int) ≤ index) : slotAt slots index = none := by
  unfold slotAt
  split
  · rfl
  · apply List.getElem?_eq_none
    omega

theorem lookupScreen_absent (screens : List (Int × Container)) (id : Int)
    (h : ∀ c, (id, c) ∉ screens) : lookupScreen screens id = none := by
  induction screens with
  | nil => rfl
  | cons kc rest ih =>
      obtain ⟨k, c⟩ := kc
      have hk : k ≠ id := by
        intro hk
        subst hk
        exact h c (List.mem_cons_self _ _)
      simp only [lookupScreen, if_neg hk]
      exact ih (fun c0 hc => h c0 (List.mem_cons_of_mem _ hc))

theorem lookupScreen_present (screens : List (Int × Container)) (id : Int) (c : Container)
    (hkeys : (screens.map Prod.fst).Nodup) (h : (id, c) ∈ screens) :
    lookupScreen screens id = some c := by
  induction screens with
  | nil => cases h
  | cons kc rest ih =>
      obtain ⟨k, c0⟩ := kc
      simp only [List.map_cons, List.nodup_cons, List.mem_map, Prod.exists,
        exists_and_right, exists_eq_right, not_exists] at hkeys
      rcases List.mem_cons.mp h with heq | hmem
      · cases heq
        simp [lookupScreen]
      · have hk : k ≠ id := by
          intro hk
          subst hk
          exact hkeys.1 c hmem
        simp only [lookupScreen, if_neg hk]
        exact ih hkeys.2 hmem

/-- C7: `onScreenSlotChange id index` picks its store by the identifier convention.
With `id = -2` it reads the inventory: for `index` inside the inventory it prints the slot at
that position and returns nil, for `index` outside it the access is out of range, and
neither the cursor nor the screens influence the run.  With `id = -1` and `index = -1` it
prints the cursor slot and returns nil.  For every other pair it reads the opened screens
only: when no screen is opened under `id`, nothing is read or printed and nil is returned;
when the screen opened under `id` is an inventory, the slot at `index` of that screen is
printed with its item description, or the access is out of range; when it is of another
type nothing is printed.  In every case the stores after the call are the stores before
it.  The screens are a map: each identifier is opened at most once. -/
theorem slot_change_resolves_store (byID : Nat → ItemLookup) (sm : ScreenManager)
    (id index : Int) :
    (id = -2 → ∀ (n : Nat) (h : n < sm.Inventory.length), index = (n : Int) →
      (onScreenSlotChange byID sm id index).run =
        { effects := [.logPrintf "Slot: inventory: %v" [.slot sm.Inventory[n]]]
          result := .returned none }) ∧
    (id = -2 → (index < 0 ∨ (sm.Inventory.length : Int) ≤ index) →
      (onScreenSlotChange byID sm id index).run =
        { effects := [], result := .indexOutOfRange index sm.Inventory.length }) ∧
    (id = -2 → ∀ other : ScreenManager, other.Inventory = sm.Inventory →
      (onScreenSlotChange byID other id index).run
        = (onScreenSlotChange byID sm id index).run) ∧
    (id = -1 ∧ index = -1 →
      (onScreenSlotChange byID sm id index).run =
        { effects := [.logPrintf "Slot: cursor: %v" [.slot sm.Cursor]]
          result := .returned none }) ∧
    (id ≠ -2 → ¬ (id = -1 ∧ index = -1) → (∀ c, (id, c) ∉ sm.Screens) →
      (onScreenSlotChange byID sm id index).run = { effects := [], result := .returned none }) ∧
    (id ≠ -2 → ¬ (id = -1 ∧ index = -1) → (sm.Screens.map Prod.fst).Nodup →
      ∀ slots : List Slot, (id, Container.inventory slots) ∈ sm.Screens →
      ∀ (n : Nat) (h : n < slots.length), index = (n : Int) →
      (onScreenSlotChange byID sm id index).run =
        match byID (slots[n].ID % 4294967296).toNat with
        | .info d =>
            { effects := [.logPrintf "Slot: Screen[%d].Slot[%d]: [%v] * %d | NBT: %v"
                            [.int id, .int index, .item (some d), .int slots[n].Count,
                             .str slots[n].NBT]]
              result := .returned none }
        | .nilItem =>
            { effects := [.logPrintf "Slot: Screen[%d].Slot[%d]: [%v] * %d | NBT: %v"
                            [.int id, .int index, .item none, .int slots[n].Count,
                             .str slots[n].NBT]]
              result := .returned none }
        | .fault k =>
            { effects := [], result := .indexOutOfRange (slots[n].ID % 4294967296) k }) ∧
    (id ≠ -2 → ¬ (id = -1 ∧ index = -1) → (sm.Screens.map Prod.fst).Nodup →
      ∀ slots : List Slot, (id, Container.inventory slots) ∈ sm.Screens →
      (index < 0 ∨ (slots.length : Int) ≤ index) →
      (onScreenSlotChange byID sm id index).run =
        { effects := [], result := .indexOutOfRange index slots.length }) ∧
    (id ≠ -2 → ¬ (id = -1 ∧ index = -1) → (sm.Screens.map Prod.fst).Nodup →
      ∀ kind : String, (id, Container.otherContainer kind) ∈ sm.Screens →
      (onScreenSlotChange byID sm id index).run = { effects := [], result := .returned none }) ∧
    (id ≠ -2 → ¬ (id = -1 ∧ index = -1) →
      ∀ other : ScreenManager, other.Screens = sm.Screens →
      (onScreenSlotChange byID other id index).run
        = (onScreenSlotChange byID sm id index).run) ∧
    (onScreenSlotChange byID sm id index).after = sm := by
  refine ⟨?_, ?_, ?_, ?_, ?_, ?_, ?_, ?_, ?_, ?_⟩
  · intro h n hn hi
    subst h hi
    unfold onScreenSlotChange
    simp only [if_true, slotAt_natCast sm.Inventory n hn]
  · intro h hout
    subst h
    unfold onScreenSlotChange
    simp only [if_true, slotAt_outside sm.Inventory index hout]
  · intro h other ho
    subst h
    unfold onScreenSlotChange
    simp only [if_true, ho]
    split <;> rfl
  · rintro ⟨h1, h2⟩
    subst h1 h2
    rfl
  · intro h1 h2 h3
    unfold onScreenSlotChange
    rw [if_neg h1, if_neg h2, lookupScreen_absent sm.Screens id h3]
  · intro h1 h2 hkeys slots hmem n hn hi
    subst hi
    unfold onScreenSlotChange
    rw [if_neg h1, if_neg h2, lookupScreen_present sm.Screens id _ hkeys hmem]
    simp only [slotAt_natCast slots n hn]
    split <;> rfl
  · intro h1 h2 hkeys slots hmem hout
    unfold onScreenSlotChange
    rw [if_neg h1, if_neg h2, lookupScreen_present sm.Screens id _ hkeys hmem]
    simp only [slotAt_outside slots index hout]
  · intro h1 h2 hkeys kind hmem
    unfold onScreenSlotChange
    rw [if_neg h1, if_neg h2, lookupScreen_present sm.Screens id _ hkeys hmem]
  · intro h1 h2 other ho
    unfold onScreenSlotChange
    rw [if_neg h1, if_neg h2, if_neg h1, if_neg h2, ho]
    repeat (first | split | rfl)
  · unfold onScreenSlotChange
    repeat (first | split | rfl)

/-- Witness of C7: on stores whose slots all differ, a change of inventory slot 1, a change
of the cursor, a change in container 7, which is not opened, a change of slot 1 of the
chest opened as container 3, and a change in container 4, which is not an inventory. -/
theorem slot_change_resolves_store_witness :
    (onScreenSlotChange sampleTable sampleManager (-2) 1).run
      = { effects := [.logPrintf "Slot: inventory: %v" [.slot ⟨2, 5, "b"⟩]]
          result := .returned none } ∧
    (onScreenSlotChange sampleTable sampleManager (-1) (-1)).run
      = { effects := [.logPrintf "Slot: cursor: %v" [.slot ⟨9, 1, "c"⟩]]
          result := .returned none } ∧
    (onScreenSlotChange sampleTable sampleManager 7 0).run
      = { effects := [], result := .returned none } ∧
    (onScreenSlotChange sampleTable sampleManager 3 1).run
      = { effects := [.logPrintf "Slot: Screen[%d].Slot[%d]: [%v] * %d | NBT: %v"
                        [.int 3, .int 1, .item (some "stick"), .int 2, .str "e"]]
          result := .returned none } ∧
    (onScreenSlotChange sampleTable sampleManager 4 0).run
      = { effects := [], result := .returned none } :=
  ⟨(slot_change_resolves_store sampleTable sampleManager (-2) 1).1 rfl 1 (by decide) rfl,
   (slot_change_resolves_store sampleTable sampleManager (-1) (-1)).2.2.2.1 ⟨rfl, rfl⟩,
   (slot_change_resolves_store sampleTable sampleManager 7 0).2.2.2.2.1
      (by decide) (by decide) (by intro c hc; simp [sampleManager] at hc),
   (slot_change_resolves_store sampleTable sampleManager 3 1).2.2.2.2.2.1
      (by decide) (by decide) (by decide) [⟨10, 1, "d"⟩, ⟨11, 2, "e"⟩] (by decide)
      1 (by decide) rfl,
   (slot_change_resolves_store sampleTable sampleManager 4 0).2.2.2.2.2.2.2.1
      (by decide) (by decide) (by decide) "furnace" (by decide)⟩

/-- C8: `onDeath` returns nil and starts exactly one background task, without sleeping or
calling respawn itself.  Whatever `player.Respawn()` answers, the task first sleeps
`time.Second * 5` (5 000 000 000 ns), then calls respawn, exactly once, and after that at
most prints the error: it returns nothing to the dispatcher. -/
theorem onDeath_schedules_one_delayed_respawn (respawnResult : Option GoError) :
    onDeath.result = .returned none ∧
    onDeath.effects.count .goRespawnTask = 1 ∧
    (∀ ns, Effect.sleep ns ∉ onDeath.effects) ∧
    Effect.respawn ∉ onDeath.effects ∧
    (respawnTask respawnResult).count .respawn = 1 ∧
    (∃ after : List Effect,
      respawnTask respawnResult = .sleep 5000000000 :: .respawn :: after ∧
      after = (match respawnResult with
               | some err => [.logPrint [.err (some err)]]
               | none => [])) := by
  refine ⟨rfl, ?_, ?_, ?_, ?_, ?_⟩
  · simp [onDeath]
  · intro ns
    simp [onDeath]
  · simp [onDeath]
  · cases respawnResult <;> simp [respawnTask]
  · exact ⟨_, rfl, rfl⟩

/-- C9: every invocation of `onGameStart` sends one chat message, "Hello, world", and
returns nil when the send succeeds and the error of the send when it fails; no other hook
sends a chat message.  So the messages sent over a sequence of hook invocations are one
"Hello, world" per game-start in it, and exactly one when it holds exactly one game-start. -/
theorem greeting_sent_once_per_game_start (byID : Nat → ItemLookup) (sm : ScreenManager)
    (calls : List HookCall) (sendResult : Option GoError) :
    sentMessages (onGameStart sendResult).effects = ["Hello, world"] ∧
    (onGameStart none).result = .returned none ∧
    (∀ err, (onGameStart (some err)).result = .returned (some err)) ∧
    sentMessages onDeath.effects = [] ∧
    (∀ health, sentMessages (onHealthChange health).effects = []) ∧
    (∀ reason, sentMessages (onDisconnectRun reason).effects = []) ∧
    (∀ msg, sentMessages (onPlayerMsg msg).effects = []) ∧
    (∀ c overlay, sentMessages (onSystemMsg c overlay).effects = []) ∧
    (∀ pos, sentMessages (onChunkLoad pos).effects = []) ∧
    (∀ pos, sentMessages (onChunkUnload pos).effects = []) ∧
    (∀ manager id index,
      sentMessages (onScreenSlotChange byID manager id index).run.effects = []) ∧
    sentMessages (invokeAll byID sm calls)
      = List.replicate (calls.countP HookCall.isGameStart) "Hello, world" ∧
    (calls.countP HookCall.isGameStart = 1 →
      sentMessages (invokeAll byID sm calls) = ["Hello, world"]) := by
  have hall : ∀ cs : List HookCall, sentMessages (invokeAll byID sm cs)
      = List.replicate (cs.countP HookCall.isGameStart) "Hello, world" := by
    intro cs
    induction cs with
    | nil => rfl
    | cons c cs ih =>
        rw [invokeAll, sentMessages_append, ih]
        cases c with
        | setSlot id index =>
            simp [invoke, sentMessages_onScreenSlotChange, HookCall.isGameStart]
        | gameStart r =>
            simp [invoke, onGameStart, sentMessages, HookCall.isGameStart,
              List.replicate_succ]
        | _ => simp [invoke, sentMessages, HookCall.isGameStart, onSystemMsg, onDisconnectRun,
                 onHealthChange, onDeath, onPlayerMsg, onChunkLoad, onChunkUnload]
  refine ⟨rfl, rfl, fun _ => rfl, rfl, fun _ => rfl, fun _ => rfl, fun _ => rfl,
    fun _ _ => rfl, fun _ => rfl, fun _ => rfl,
    fun m i j => sentMessages_onScreenSlotChange byID m i j, hall calls, ?_⟩
  intro h1
  rw [hall calls, h1]
  rfl

/-- Witness of C9: chunk loads, a failing greeting, a death and a slot change. -/
theorem greeting_sent_once_per_game_start_witness :
    sentMessages (invokeAll nilTable freshManager
      [.loadChunk ⟨5, 5⟩, .gameStart (some (.leaf "send failed")), .death, .setSlot (-2) 3,
       .unloadChunk ⟨5, 5⟩]) = ["Hello, world"] :=
  (greeting_sent_once_per_game_start nilTable freshManager
    [.loadChunk ⟨5, 5⟩, .gameStart (some (.leaf "send failed")), .death, .setSlot (-2) 3,
     .unloadChunk ⟨5, 5⟩] none).2.2.2.2.2.2.2.2.2.2.2.2 rfl

/-- C10 (the code at failing inputs): on the stores of a fresh manager, a change addressed
to the inventory (`id = -2`) with `index = -1`, and a change addressed to the opened
inventory screen 0 with `index = 46`, do not return nil: the slot access is out of range
and the hook panics.  The first holds on every manager. -/
theorem slot_change_faults_out_of_range :
    (onScreenSlotChange nilTable freshManager (-2) (-1)).run
      = { effects := [], result := .indexOutOfRange (-1) 46 } ∧
    (onScreenSlotChange nilTable freshManager 0 46).run
      = { effects := [], result := .indexOutOfRange 46 46 } ∧
    (onScreenSlotChange nilTable freshManager (-2) (-1)).run.result ≠ .returned none ∧
    (∀ (byID : Nat → ItemLookup) (sm : ScreenManager),
      (onScreenSlotChange byID sm (-2) (-1)).run.result
        = .indexOutOfRange (-1) sm.Inventory.length) := by
  refine ⟨by decide, by decide, by decide, ?_⟩
  intro byID sm
  rfl

end Floppysox
